import Mathlib

/-!
Shallow embedding of `src/body/body.rs` (the `Recv` body stream and its `Sender`
half): the channel-backed body, its backpressure protocol, declared-length
accounting, abort path, and size hints.  The three concurrency primitives
(capacity-one mpsc queue, oneshot trailer slot, watch signal) are external
collaborators and are modelled by the interfaces the source relies on; the
`h2::RecvStream` internals are out of scope and appear only through the narrow
surface the source consumes.
-/

namespace HyperBody

/-- Byte chunks (`bytes::Bytes`), modelled as lists of byte values; `len()` is the
list length. -/
abbrev Bytes := List Nat

/-- Trailer maps (`http::HeaderMap`), modelled as association lists. -/
abbrev HeaderMap := List (String × String)

/-- The kinds of `crate::Error` this module constructs or forwards: `new_closed`,
`new_body_write_aborted`, `new_body` (wrapped transport error) and `new_h2`
(wrapped frame error). -/
inductive HError
  | closed
  | bodyWriteAborted
  | body
  | h2Frame
  deriving DecidableEq

deriving instance DecidableEq for Except

/-- Non-blocking poll outcome (`std::task::Poll`). -/
inductive Poll (α : Type)
  | ready (a : α)
  | pending
  deriving DecidableEq

/-- Modelled from the spec: `DecodedLength` is repository code not present under
`src/`.  Per the declared-length interface it represents "exact N" or
"unknown/chunked", with a zero sentinel, saturating subtraction and exactness
queries. -/
inductive DecodedLength
  | exact (n : Nat)
  | chunked
  deriving DecidableEq

/-- The zero sentinel of the declared length. -/
def DecodedLength.ZERO : DecodedLength := .exact 0

/-- The unknown/chunked marker of the declared length. -/
def DecodedLength.CHUNKED : DecodedLength := .chunked

/-- Modelled from the spec: `is_exact` holds exactly for the "exact N" states. -/
def DecodedLength.is_exact : DecodedLength → Bool
  | .exact _ => true
  | .chunked => false

/-- Modelled from the spec: `to_optional_exact` / `into_opt` exposes the exact
byte count when there is one. -/
def DecodedLength.into_opt : DecodedLength → Option Nat
  | .exact n => some n
  | .chunked => none

/-- Modelled from the spec: `sub_if` is saturating subtraction, applied only when
the length is exact (the chunked marker is left untouched).  Natural-number
truncated subtraction is exactly saturating subtraction. -/
def DecodedLength.sub_if : DecodedLength → Nat → DecodedLength
  | .exact m, n => .exact (m - n)
  | .chunked, _ => .chunked

/-- Modelled from the spec: value of the tri-state backpressure watch signal
(`crate::common::watch`, repository code not present under `src/`): PENDING (the
producer must wait), READY (the producer may proceed), CLOSED (the consumer side
was dropped; terminal). -/
inductive WatchValue
  | pending
  | ready
  | closed
  deriving DecidableEq

/-- The `WANT_PENDING` sentinel of `body.rs`, as a watch value. -/
def WANT_PENDING : WatchValue := .pending

/-- The `WANT_READY` sentinel of `body.rs`, as a watch value. -/
def WANT_READY : WatchValue := .ready

/-- State of the one-shot trailer channel (`futures_channel::oneshot`, an external
primitive modelled by its interface): nothing sent yet with the write end alive,
a delivered value, or the write end dropped without sending. -/
inductive TrailerSlot
  | waiting
  | sent (t : HeaderMap)
  | closed
  deriving DecidableEq

/-- Shared state of a channel-backed `(Sender, Recv)` pair: the watch signal, the
capacity-one data queue holding `Result<Bytes, crate::Error>` items in FIFO
order, liveness of the two handles, the trailer slot and whether the one-shot sender-side trailer write end was already taken, and the mutable declared length
stored in `Kind::Chan`. -/
structure ChanState where
  want : WatchValue
  queue : List (Except HError Bytes)
  senderDropped : Bool
  recvDropped : Bool
  trailers : TrailerSlot
  trailersTxTaken : Bool
  contentLength : DecodedLength
  deriving DecidableEq

/-- `Recv::new_channel(content_length, wanter)`: fresh shared state; in wanter
(lazy) mode the watch signal starts at `WANT_PENDING`, otherwise at
`WANT_READY`; the queue is empty, both handles live, the trailer slot armed. -/
def new_channel (content_length : DecodedLength) (wanter : Bool) : ChanState :=
  { want := if wanter then WANT_PENDING else WANT_READY
    queue := []
    senderDropped := false
    recvDropped := false
    trailers := .waiting
    trailersTxTaken := false
    contentLength := content_length }

/-- The surface of the external `h2::RecvStream` that `body.rs` consumes: pending
data frames (a frame is a chunk or a stream error), the end-of-stream flag, and
the trailer outcome.  The framing of the stream and flow-control internals are out of
scope. -/
structure H2RecvStream where
  frames : List (Except Unit Bytes)
  endStream : Bool
  trailersRes : Except Unit (Option HeaderMap)
  deriving DecidableEq

/-- `h2::RecvStream::is_end_stream`. -/
def H2RecvStream.is_end_stream (r : H2RecvStream) : Bool := r.endStream

/-- The backend variants of `Kind` under specification: `Empty`, `Chan` carrying
the shared channel state, and `H2` carrying the declared length and the receive
stream surface.  (The `Ffi` variant is a foreign-interface collaborator, out of
scope.) -/
inductive Kind
  | empty
  | chan (st : ChanState)
  | h2 (content_length : DecodedLength) (recv : H2RecvStream)
  deriving DecidableEq

/-- The `Recv` body: owns exactly one backend variant. -/
structure Recv where
  kind : Kind
  deriving DecidableEq

/-- `Recv::new`. -/
def Recv.new (kind : Kind) : Recv := ⟨kind⟩

/-- `Recv::empty`. -/
def Recv.empty : Recv := Recv.new .empty

/-- `Recv::h2(recv, content_length, ping)`: if the declared length is not exact
and the stream is already at end-of-stream, the stored length is forced to
`DecodedLength::ZERO`; the ping recorder is an external collaborator with no
observable state here. -/
def Recv.h2 (recv : H2RecvStream) (content_length : DecodedLength) : Recv :=
  let content_length :=
    if !content_length.is_exact && recv.is_end_stream then DecodedLength.ZERO
    else content_length
  Recv.new (Kind.h2 content_length recv)

/-- The `Kind::Chan` arm of `Recv::poll_inner`: first unconditionally store
`WANT_READY` into the watch signal, then poll the data queue: a ready chunk has
its length saturating-subtracted from the declared length and is yielded; an
error item is propagated by the `?` on `poll_next` without touching the length;
an empty queue is end-of-stream when the sender handles are gone and suspends
otherwise. -/
def ChanState.pollData (s : ChanState) :
    Poll (Option (Except HError Bytes)) × ChanState :=
  let s := { s with want := WANT_READY }
  match s.queue with
  | [] => if s.senderDropped then (.ready none, s) else (.pending, s)
  | .ok chunk :: rest =>
      (.ready (some (.ok chunk)),
       { s with queue := rest
                contentLength := s.contentLength.sub_if chunk.length })
  | .error e :: rest =>
      (.ready (some (.error e)), { s with queue := rest })

/-- `Recv::poll_inner` / `poll_data`: dispatch on the variant.  `Empty` is
immediately done; `Chan` is the channel arm above; `H2` pulls the next frame from
the receive stream, saturating-subtracts the length of a successful frame (the
flow-control credit release and ping recording touch only external
collaborators) and wraps a stream error via `Error::new_body`. -/
def Recv.poll_inner (r : Recv) : Poll (Option (Except HError Bytes)) × Recv :=
  match r.kind with
  | .empty => (.ready none, r)
  | .chan st =>
      let (res, st) := st.pollData
      (res, Recv.new (.chan st))
  | .h2 len recv =>
      match recv.frames with
      | [] => (.ready none, r)
      | .ok bytes :: rest =>
          (.ready (some (.ok bytes)),
           Recv.new (.h2 (len.sub_if bytes.length) { recv with frames := rest }))
      | .error _ :: rest =>
          (.ready (some (.error .body)),
           Recv.new (.h2 len { recv with frames := rest }))

/-- `Recv::poll_trailers`: `Empty` yields `Ok(None)`; `H2` delegates to the
trailer poll of the stream, wrapping an error via `Error::new_h2`; `Chan` waits on the
trailer slot, turning a delivered map into `Ok(Some(map))` and a dropped write
end (`Err(Canceled)`) into `Ok(None)`. -/
def Recv.poll_trailers (r : Recv) : Poll (Except HError (Option HeaderMap)) × Recv :=
  match r.kind with
  | .empty => (.ready (.ok none), r)
  | .h2 _ recv =>
      match recv.trailersRes with
      | .ok t => (.ready (.ok t), r)
      | .error _ => (.ready (.error .h2Frame), r)
  | .chan st =>
      match st.trailers with
      | .waiting => (.pending, r)
      | .sent t => (.ready (.ok (some t)), r)
      | .closed => (.ready (.ok none), r)

/-- `Recv::is_end_stream`: `Empty` is true; `Chan` compares the declared length to
the zero sentinel without any polling; `H2` delegates to the flag of the stream. -/
def Recv.is_end_stream (r : Recv) : Bool :=
  match r.kind with
  | .empty => true
  | .chan st => st.contentLength == DecodedLength.ZERO
  | .h2 _ recv => recv.is_end_stream

/-- `http_body::SizeHint`: a lower bound and an optional upper bound on the
remaining byte count. -/
structure SizeHint where
  lower : Nat
  upper : Option Nat
  deriving DecidableEq

/-- `SizeHint::default()`: lower 0, no upper bound. -/
def SizeHint.default : SizeHint := ⟨0, none⟩

/-- `SizeHint::set_exact(n)`: both bounds become `n`. -/
def SizeHint.set_exact (_ : SizeHint) (n : Nat) : SizeHint := ⟨n, some n⟩

/-- `SizeHint::with_exact(n)`. -/
def SizeHint.with_exact (n : Nat) : SizeHint := ⟨n, some n⟩

/-- The `opt_len!` macro of `Recv::size_hint`: start from the default hint and set
it exact when `into_opt` yields a concrete length. -/
def opt_len (content_length : DecodedLength) : SizeHint :=
  match content_length.into_opt with
  | some n => SizeHint.default.set_exact n
  | none => SizeHint.default

/-- `Recv::size_hint`: `Empty` is exactly 0; `Chan` and `H2` use `opt_len!` on the
current declared length. -/
def Recv.size_hint (r : Recv) : SizeHint :=
  match r.kind with
  | .empty => SizeHint.with_exact 0
  | .chan st => opt_len st.contentLength
  | .h2 len _ => opt_len len

/-- `Sender::poll_want`: read the watch signal; `WANT_READY` proceeds,
`WANT_PENDING` suspends, `CLOSED` fails with a closed error. -/
def Sender.poll_want (s : ChanState) : Poll (Except HError Unit) :=
  match s.want with
  | .ready => .ready (.ok ())
  | .pending => .pending
  | .closed => .ready (.error .closed)

/-- `mpsc::Sender::poll_ready` on the capacity-one data queue (external primitive
modelled by its interface): an abandoned queue (receiver gone) errors, a full
buffer slot suspends, otherwise capacity is available. -/
def dataTxPollReady (s : ChanState) : Poll (Except Unit Unit) :=
  if s.recvDropped then .ready (.error ())
  else if s.queue.isEmpty then .ready (.ok ())
  else .pending

/-- `Sender::poll_ready`: first `poll_want` (the `ready!` propagates its pending
and error outcomes), then the readiness of the data queue, mapping a queue error to
`Error::new_closed`. -/
def Sender.poll_ready (s : ChanState) : Poll (Except HError Unit) :=
  match Sender.poll_want s with
  | .pending => .pending
  | .ready (.error e) => .ready (.error e)
  | .ready (.ok ()) =>
      match dataTxPollReady s with
      | .pending => .pending
      | .ready (.ok ()) => .ready (.ok ())
      | .ready (.error ()) => .ready (.error .closed)

/-- `mpsc::Sender::try_send` on the capacity-one queue (external primitive
modelled by its interface): fails returning the rejected item when the buffer
slot is occupied or the receiver is gone; otherwise appends the item in FIFO
order. -/
def dataTxTrySend (s : ChanState) (item : Except HError Bytes) :
    Except (Except HError Bytes) Unit × ChanState :=
  if s.recvDropped || !s.queue.isEmpty then (.error item, s)
  else (.ok (), { s with queue := s.queue ++ [item] })

/-- `Sender::try_send_data`: try to enqueue `Ok(chunk)` without consulting the
watch signal; on failure, `into_inner().expect("just sent Ok")` recovers exactly
the chunk and hands it back to the caller. -/
def Sender.try_send_data (s : ChanState) (chunk : Bytes) :
    Except Bytes Unit × ChanState :=
  match dataTxTrySend s (.ok chunk) with
  | (.ok _, s) => (.ok (), s)
  | (.error _, s) => (.error chunk, s)

/-- Dropping the `Sender` handle: the write end of the data queue and, when still
present, the trailer-slot write end are dropped; an armed trailer slot becomes
closed. -/
def Sender.dropSender (s : ChanState) : ChanState :=
  { s with senderDropped := true
           trailers := match s.trailers with
             | .waiting => .closed
             | t => t }

/-- `Sender::abort(self)`: clone the write handle of the data queue so the push
succeeds even when the buffer slot is full (the clone owns a fresh guaranteed
slot; the push fails only when the receiver is gone, and the result is ignored),
append the `body_write_aborted` error behind anything already buffered, then drop
the consumed sender. -/
def Sender.abort (s : ChanState) : ChanState :=
  let s :=
    if s.recvDropped then s
    else { s with queue := s.queue ++ [.error .bodyWriteAborted] }
  Sender.dropSender s

/-- `Sender::send_error`: try to push `Err(err)` through the normal write handle
and ignore the result (`let _ = ...`); the caller learns nothing. -/
def Sender.send_error (s : ChanState) (err : HError) : ChanState :=
  (dataTxTrySend s (.error err)).2

/-- `Sender::send_trailers`: take the one-shot write end (a second call finds
`None` and fails closed), then send, failing closed when the read end is gone. -/
def Sender.send_trailers (s : ChanState) (t : HeaderMap) :
    Except HError Unit × ChanState :=
  if s.trailersTxTaken then (.error .closed, s)
  else
    let s := { s with trailersTxTaken := true }
    if s.recvDropped then (.error .closed, s)
    else (.ok (), { s with trailers := .sent t })

/-- Dropping the `Recv` body: the write end of the watch signal stores `CLOSED` and
the data-queue and trailer-slot read ends are abandoned. -/
def ChanState.dropRecv (s : ChanState) : ChanState :=
  { s with recvDropped := true, want := .closed }

/-- The operations that can act on the shared state of a channel pair, for stating
state-machine invariants over arbitrary interleavings. -/
inductive Op
  | pollData
  | pollTrailers
  | pollReady
  | trySend (c : Bytes)
  | sendError (e : HError)
  | sendTrailers (t : HeaderMap)
  | abort
  | dropSender
  | dropRecv
  deriving DecidableEq

/-- The state effect of each operation (the read-only polls register a waker,
which has no modelled state). -/
def applyOp (op : Op) (s : ChanState) : ChanState :=
  match op with
  | .pollData => s.pollData.2
  | .pollTrailers => s
  | .pollReady => s
  | .trySend c => (Sender.try_send_data s c).2
  | .sendError e => Sender.send_error s e
  | .sendTrailers t => (Sender.send_trailers s t).2
  | .abort => Sender.abort s
  | .dropSender => Sender.dropSender s
  | .dropRecv => s.dropRecv

/-- One producer/consumer round: `try_send_data` the chunk into the free slot,
then `poll_data` it out through the channel arm of the body. -/
def feedOne (s : ChanState) (c : Bytes) : ChanState :=
  ((Sender.try_send_data s c).2).pollData.2

/-- Feed a whole sequence of chunks through the channel, one round each. -/
def feedAll (s : ChanState) (cs : List Bytes) : ChanState :=
  cs.foldl feedOne s

/-- Total byte count of a sequence of chunks. -/
def totalLen (cs : List Bytes) : Nat := (cs.map List.length).sum

lemma feedOne_eq (s : ChanState) (c : Bytes) (h1 : s.queue = [])
    (h2 : s.recvDropped = false) (h3 : s.senderDropped = false) :
    feedOne s c
      = { s with want := WANT_READY
                 contentLength := s.contentLength.sub_if c.length } := by
  simp [feedOne, Sender.try_send_data, dataTxTrySend, ChanState.pollData,
    h1, h2, h3]

lemma feedAll_contentLength (cs : List Bytes) : ∀ s : ChanState, s.queue = [] →
    s.recvDropped = false → s.senderDropped = false →
    (feedAll s cs).contentLength
      = cs.foldl (fun l c => DecodedLength.sub_if l c.length) s.contentLength := by
  induction cs with
  | nil => intro s _ _ _; rfl
  | cons c cs ih =>
      intro s h1 h2 h3
      show (feedAll (feedOne s c) cs).contentLength = _
      rw [feedOne_eq s c h1 h2 h3, List.foldl_cons]
      exact ih _ h1 h2 h3

lemma foldl_sub_if_exact (cs : List Bytes) : ∀ n : Nat,
    cs.foldl (fun l c => DecodedLength.sub_if l c.length) (.exact n)
      = .exact (n - totalLen cs) := by
  induction cs with
  | nil => intro n; simp [totalLen, feedAll]
  | cons c cs ih =>
      intro n
      rw [List.foldl_cons,
        show DecodedLength.sub_if (.exact n) c.length
          = DecodedLength.exact (n - c.length) from rfl, ih]
      simp [totalLen, Nat.sub_sub]

lemma pollData_want_ready (s : ChanState) : (s.pollData.2).want = WANT_READY := by
  unfold ChanState.pollData
  cases hq : s.queue with
  | nil => cases hs : s.senderDropped <;> simp [hq, hs]
  | cons head rest => cases head <;> simp [hq]

lemma applyOp_want_eq (op : Op) (s : ChanState) (h1 : op ≠ .pollData)
    (h2 : op ≠ .dropRecv) : (applyOp op s).want = s.want := by
  cases op with
  | pollData => exact absurd rfl h1
  | dropRecv => exact absurd rfl h2
  | pollTrailers => rfl
  | pollReady => rfl
  | trySend c =>
      by_cases hc : s.recvDropped || !s.queue.isEmpty <;>
        simp [applyOp, Sender.try_send_data, dataTxTrySend, hc]
  | sendError e =>
      by_cases hc : s.recvDropped || !s.queue.isEmpty <;>
        simp [applyOp, Sender.send_error, dataTxTrySend, hc]
  | sendTrailers t =>
      by_cases ht : s.trailersTxTaken <;> by_cases hr : s.recvDropped <;>
        simp [applyOp, Sender.send_trailers, ht, hr]
  | abort =>
      by_cases hr : s.recvDropped <;>
        simp [applyOp, Sender.abort, Sender.dropSender, hr]
  | dropSender => simp [applyOp, Sender.dropSender]

/-- C1: `abort` appends the body-write-aborted error behind anything already
buffered (the duplicated write handle bypasses capacity, never order), so with
one chunk buffered the successive `poll_data` calls of the consumer yield the chunk
successfully first and the abort error second. -/
theorem c1_abort_preserves_order (s : ChanState) (c : Bytes) :
    (s.recvDropped = false →
        (Sender.abort s).queue = s.queue ++ [.error .bodyWriteAborted]) ∧
    (s.recvDropped = false → s.queue = [.ok c] →
        (Sender.abort s).pollData.1 = .ready (some (.ok c)) ∧
        ((Sender.abort s).pollData.2).pollData.1
          = .ready (some (.error .bodyWriteAborted))) := by
  constructor
  · intro h
    simp [Sender.abort, Sender.dropSender, h]
  · intro h hq
    simp [Sender.abort, Sender.dropSender, h, hq, ChanState.pollData]

/-- C1 witness: with the chunk `[1, 2]` buffered on a fresh pair, abort then two
polls yield the chunk and then the abort error, and the abort appended behind the
buffered chunk. -/
theorem c1_abort_preserves_order_witness :
    (Sender.abort
        { new_channel .chunked false with queue := [.ok [1, 2]] }).queue
      = [.ok [1, 2]] ++ [.error .bodyWriteAborted] ∧
    (Sender.abort
        { new_channel .chunked false with queue := [.ok [1, 2]] }).pollData.1
      = .ready (some (.ok [1, 2])) ∧
    ((Sender.abort
        { new_channel .chunked false with queue := [.ok [1, 2]] }).pollData.2).pollData.1
      = .ready (some (.error .bodyWriteAborted)) := by
  have h := c1_abort_preserves_order
    { new_channel .chunked false with queue := [.ok [1, 2]] } [1, 2]
  exact ⟨h.1 rfl, h.2 rfl rfl⟩

/-- C2: the lazy-demand ("wanter") protocol: `poll_ready` on a fresh lazy pair is
pending; every Channel `poll_data` leaves the watch signal at `WANT_READY`;
before any `poll_data` (with the consumer alive) every other operation leaves the
signal at `WANT_PENDING`; once the signal has left `WANT_PENDING` no operation
brings it back (the transition is one-directional); and with the signal at
`WANT_READY`, a free slot and a live consumer, `poll_ready` is ready with
success. -/
theorem c2_wanter_pending_to_ready :
    (∀ len : DecodedLength, Sender.poll_ready (new_channel len true) = .pending) ∧
    (∀ s : ChanState, (s.pollData.2).want = WANT_READY) ∧
    (∀ s : ChanState, ∀ op : Op, s.want = WANT_PENDING → op ≠ .pollData →
        op ≠ .dropRecv → (applyOp op s).want = WANT_PENDING) ∧
    (∀ s : ChanState, ∀ op : Op, s.want ≠ WANT_PENDING →
        (applyOp op s).want ≠ WANT_PENDING) ∧
    (∀ s : ChanState, s.want = WANT_READY → s.queue = [] → s.recvDropped = false →
        Sender.poll_ready s = .ready (.ok ())) := by
  refine ⟨fun len => rfl, pollData_want_ready, ?_, ?_, ?_⟩
  · intro s op hw h1 h2
    rw [applyOp_want_eq op s h1 h2]
    exact hw
  · intro s op hw
    by_cases h1 : op = Op.pollData
    · subst h1
      rw [show applyOp .pollData s = s.pollData.2 from rfl, pollData_want_ready]
      decide
    · by_cases h2 : op = Op.dropRecv
      · subst h2
        rw [show (applyOp .dropRecv s).want = WatchValue.closed from rfl]
        decide
      · rw [applyOp_want_eq op s h1 h2]
        exact hw
  · intro s hw hq hr
    simp [Sender.poll_ready, Sender.poll_want, hw, WANT_READY, dataTxPollReady,
      hr, hq]

/-- C2 witness: on the fresh lazy pair `poll_ready` is pending; its first
`poll_data` sets the signal ready; a `try_send` before any `poll_data` keeps it
pending; a further `poll_data` keeps it off pending; and after the first
`poll_data` `poll_ready` of the sender succeeds. -/
theorem c2_wanter_pending_to_ready_witness :
    Sender.poll_ready (new_channel .chunked true) = .pending ∧
    ((new_channel .chunked true).pollData.2).want = WANT_READY ∧
    (applyOp (.trySend [1]) (new_channel .chunked true)).want = WANT_PENDING ∧
    (applyOp .pollData ((new_channel .chunked true).pollData.2)).want
      ≠ WANT_PENDING ∧
    Sender.poll_ready ((new_channel .chunked true).pollData.2)
      = .ready (.ok ()) := by
  have h := c2_wanter_pending_to_ready
  refine ⟨h.1 .chunked, h.2.1 _, ?_, ?_, ?_⟩
  · exact h.2.2.1 (new_channel .chunked true) (.trySend [1]) rfl
      (by decide) (by decide)
  · exact h.2.2.2.1 ((new_channel .chunked true).pollData.2) .pollData
      (by decide)
  · exact h.2.2.2.2 ((new_channel .chunked true).pollData.2) rfl rfl rfl

/-- C6: declared-length accounting is saturating: feeding any sequence of chunks
through a channel pair constructed with exact declared length `n` leaves the
declared length at exactly `n` minus the delivered bytes (truncated), and
whenever the delivered bytes reach or exceed `n` the remaining length is the zero
sentinel — never a negative or wrapped value. -/
theorem c6_declared_length_no_underflow (cs : List Bytes) (n : Nat)
    (wanter : Bool) :
    (feedAll (new_channel (.exact n) wanter) cs).contentLength
        = .exact (n - totalLen cs) ∧
    (n ≤ totalLen cs →
        (feedAll (new_channel (.exact n) wanter) cs).contentLength
          = DecodedLength.ZERO) := by
  have h := feedAll_contentLength cs (new_channel (.exact n) wanter) rfl rfl rfl
  rw [show (new_channel (.exact n) wanter).contentLength
        = DecodedLength.exact n from rfl, foldl_sub_if_exact] at h
  refine ⟨h, fun hle => ?_⟩
  rw [h, Nat.sub_eq_zero_of_le hle]
  rfl

/-- C6 witness: declared length 2 with a single 3-byte chunk delivered ends at
the zero sentinel. -/
theorem c6_declared_length_witness :
    (feedAll (new_channel (.exact 2) false) [[5, 6, 7]]).contentLength
        = .exact (2 - totalLen [[5, 6, 7]]) ∧
    (feedAll (new_channel (.exact 2) false) [[5, 6, 7]]).contentLength
        = DecodedLength.ZERO := by
  have h := c6_declared_length_no_underflow [[5, 6, 7]] 2 false
  exact ⟨h.1, h.2 (by decide)⟩

/-- The `poll_ready` gate as the spec words it: phase 1 consults the backpressure
signal (PENDING suspends, CLOSED fails with a closed error, READY proceeds);
phase 2 consults the data queue (abandoned fails with a closed error, an occupied
capacity-one slot suspends, otherwise ready). -/
def pollReadySpec (s : ChanState) : Poll (Except HError Unit) :=
  match s.want with
  | .pending => .pending
  | .closed => .ready (.error .closed)
  | .ready =>
      if s.recvDropped then .ready (.error .closed)
      else if s.queue = [] then .ready (.ok ())
      else .pending

/-- C4: `Sender::poll_ready` coincides with the two-phase gate of the spec on
every state: PENDING suspends, CLOSED fails closed, and only under READY is the
queue consulted, where an abandoned queue fails closed, a full slot suspends and
spare capacity is ready; no other outcome exists. -/
theorem c4_poll_ready_two_phase_gate (s : ChanState) :
    Sender.poll_ready s = pollReadySpec s := by
  unfold Sender.poll_ready Sender.poll_want pollReadySpec dataTxPollReady
  cases hw : s.want <;> cases hr : s.recvDropped <;> cases hq : s.queue <;>
    simp [hw, hr, hq]

/-- C8: for a Channel-variant body, `is_end_stream` is the comparison of the
declared length with the zero sentinel and nothing else; in particular it is
false for the chunked marker even after the producer was dropped with the queue
drained. -/
theorem c8_is_end_stream_zero_sentinel :
    (∀ st : ChanState,
        (Recv.new (.chan st)).is_end_stream
          = decide (st.contentLength = DecodedLength.ZERO)) ∧
    (Recv.new (.chan
        (Sender.dropSender (new_channel DecodedLength.CHUNKED false)))).is_end_stream
      = false := by
  constructor
  · intro st
    simp only [Recv.is_end_stream, Recv.new]
    by_cases h : st.contentLength = DecodedLength.ZERO <;> simp [h]
  · decide

/-- C9: `size_hint` is exact (lower = upper = n) for a Channel body whose current
declared length is exactly `n`, unbounded (lower 0, no upper) for the chunked
marker, exact 0 for the Empty variant, and a fresh pair with declared length 4
reports exactly 4 before any read. -/
theorem c9_size_hint_bounds :
    (∀ st : ChanState, ∀ n : Nat,
        (Recv.new (.chan { st with contentLength := .exact n })).size_hint
          = SizeHint.with_exact n) ∧
    (∀ st : ChanState,
        (Recv.new (.chan { st with contentLength := .chunked })).size_hint
          = SizeHint.default) ∧
    Recv.empty.size_hint = SizeHint.with_exact 0 ∧
    (Recv.new (.chan (new_channel (.exact 4) false))).size_hint
      = SizeHint.with_exact 4 := by
  refine ⟨?_, ?_, rfl, rfl⟩
  · intro st n
    rfl
  · intro st
    rfl

/-- C3 counterexample: constructing the H2 body with the exact positive declared
length 5 while the stream is already at end-of-stream stores exact 5 unchanged;
the stored length is not forced to the zero sentinel, contradicting the claim. -/
theorem c3_counterexample_exact_positive_kept :
    Recv.h2 ⟨[], true, .ok none⟩ (.exact 5)
        = Recv.new (.h2 (.exact 5) ⟨[], true, .ok none⟩) ∧
    DecodedLength.exact 5 ≠ DecodedLength.ZERO := by
  exact ⟨rfl, by decide⟩

/-- C3 (amended): at construction, if the declared length is NOT exact (the
unknown/chunked marker) and the stream starts already ended, the stored declared
length is forced to the zero sentinel; otherwise (exact length, or stream not
ended) the declared length passed in is stored unchanged. -/
theorem c3_h2_content_length (recv : H2RecvStream) (len : DecodedLength) :
    (len.is_exact = false → recv.is_end_stream = true →
        Recv.h2 recv len = Recv.new (.h2 DecodedLength.ZERO recv)) ∧
    (len.is_exact = true ∨ recv.is_end_stream = false →
        Recv.h2 recv len = Recv.new (.h2 len recv)) := by
  constructor
  · intro h1 h2
    simp [Recv.h2, h1, h2]
  · intro h
    rcases h with h | h <;> simp [Recv.h2, h]

/-- C3 (amended) witness: a chunked length with an already-ended stream is stored
as the zero sentinel, and an exact length 5 with an already-ended stream is
stored unchanged. -/
theorem c3_h2_content_length_witness :
    Recv.h2 ⟨[], true, .ok none⟩ .chunked
        = Recv.new (.h2 DecodedLength.ZERO ⟨[], true, .ok none⟩) ∧
    Recv.h2 ⟨[], true, .ok none⟩ (.exact 5)
        = Recv.new (.h2 (.exact 5) ⟨[], true, .ok none⟩) :=
  ⟨(c3_h2_content_length ⟨[], true, .ok none⟩ .chunked).1 (by decide) (by decide),
   (c3_h2_content_length ⟨[], true, .ok none⟩ (.exact 5)).2 (Or.inl (by decide))⟩

/-- C5: `try_send_data` with the buffer slot occupied or the queue abandoned
returns the exact chunk back unchanged with no state change; and it never
consults the watch signal, so with spare capacity it succeeds even while
`poll_ready` is pending. -/
theorem c5_try_send_data_returns_chunk (st : ChanState) (c : Bytes) :
    (st.queue ≠ [] ∨ st.recvDropped = true →
        Sender.try_send_data st c = (.error c, st)) ∧
    (st.want = WANT_PENDING → st.queue = [] → st.recvDropped = false →
        (Sender.try_send_data st c).1 = .ok ()
          ∧ Sender.poll_ready st = .pending) := by
  constructor
  · intro h
    rcases h with h | h <;>
      simp [Sender.try_send_data, dataTxTrySend, h, List.isEmpty_iff]
  · intro hw hq hr
    refine ⟨by simp [Sender.try_send_data, dataTxTrySend, hq, hr, List.isEmpty_iff], ?_⟩
    simp [Sender.poll_ready, Sender.poll_want, hw, WANT_PENDING]

/-- C5 witness: on a fresh lazy pair with one chunk already buffered the next
chunk bounces back unchanged, and on the fresh (empty, lazy) state a send
succeeds while `poll_ready` is pending. -/
theorem c5_try_send_data_witness :
    Sender.try_send_data
        { new_channel .chunked true with queue := [.ok [7]] } [9]
      = (.error [9], { new_channel .chunked true with queue := [.ok [7]] }) ∧
    (Sender.try_send_data (new_channel .chunked true) [9]).1 = .ok () ∧
    Sender.poll_ready (new_channel .chunked true) = .pending := by
  refine ⟨(c5_try_send_data_returns_chunk _ [9]).1 (Or.inl (by decide)), ?_⟩
  exact (c5_try_send_data_returns_chunk (new_channel .chunked true) [9]).2
    (by decide) (by decide) (by decide)

/-- C7: `poll_trailers` of a Channel body yields "trailers present" when the
producer sent trailers, and yields the successful "no trailers" outcome (never an
error) when the trailer write end was dropped without a send — in particular
dropping the Sender with the slot still armed closes the slot, after which
`poll_trailers` succeeds with none. -/
theorem c7_poll_trailers_leniency (st : ChanState) (t : HeaderMap) :
    (st.trailers = .sent t →
        (Recv.new (.chan st)).poll_trailers
          = (.ready (.ok (some t)), Recv.new (.chan st))) ∧
    (st.trailers = .closed →
        (Recv.new (.chan st)).poll_trailers
          = (.ready (.ok none), Recv.new (.chan st))) ∧
    (st.trailers = .waiting →
        (Sender.dropSender st).trailers = .closed) := by
  refine ⟨?_, ?_, ?_⟩ <;> intro h <;>
    simp [Recv.poll_trailers, Recv.new, Sender.dropSender, h]

/-- C7 witness: with sent trailers the poll yields them; after dropping the
sender of a fresh pair the armed slot is closed and the poll yields the
successful "no trailers". -/
theorem c7_poll_trailers_witness :
    (Recv.new (.chan
        { new_channel .chunked false with trailers := .sent [("k", "v")] })).poll_trailers
      = (.ready (.ok (some [("k", "v")])),
         Recv.new (.chan
           { new_channel .chunked false with trailers := .sent [("k", "v")] })) ∧
    (Sender.dropSender (new_channel .chunked false)).trailers = .closed ∧
    (Recv.new (.chan
        { new_channel .chunked false with trailers := .closed })).poll_trailers
      = (.ready (.ok none),
         Recv.new (.chan { new_channel .chunked false with trailers := .closed })) := by
  refine ⟨(c7_poll_trailers_leniency _ [("k", "v")]).1 rfl, ?_, ?_⟩
  · exact (c7_poll_trailers_leniency (new_channel .chunked false) []).2.2 rfl
  · exact (c7_poll_trailers_leniency _ []).2.1 rfl

/-- C10: `Sender::send_error` never reports an outcome and is lossy at the
boundary: with the buffer slot occupied or the consumer gone the state is
unchanged and the injected error is discarded; only with a free slot and a live
consumer is the error enqueued. -/
theorem c10_send_error_lossy (st : ChanState) (e : HError) :
    (st.queue ≠ [] ∨ st.recvDropped = true →
        Sender.send_error st e = st) ∧
    (st.queue = [] → st.recvDropped = false →
        Sender.send_error st e = { st with queue := [.error e] }) := by
  constructor
  · intro h
    rcases h with h | h <;>
      simp [Sender.send_error, dataTxTrySend, h, List.isEmpty_iff]
  · intro hq hr
    simp [Sender.send_error, dataTxTrySend, hq, hr, List.isEmpty_iff]

/-- C10 witness: with one chunk buffered the injected error is silently dropped
(state unchanged); with a dropped consumer it is also dropped; with a free slot
it is enqueued. -/
theorem c10_send_error_witness :
    Sender.send_error
        { new_channel .chunked false with queue := [.ok [1]] } .closed
      = { new_channel .chunked false with queue := [.ok [1]] } ∧
    Sender.send_error
        { new_channel .chunked false with recvDropped := true } .closed
      = { new_channel .chunked false with recvDropped := true } ∧
    Sender.send_error (new_channel .chunked false) .closed
      = { new_channel .chunked false with queue := [.error .closed] } := by
  refine ⟨(c10_send_error_lossy _ .closed).1 (Or.inl (by decide)),
    (c10_send_error_lossy _ .closed).1 (Or.inr (by decide)),
    (c10_send_error_lossy (new_channel .chunked false) .closed).2
      (by decide) (by decide)⟩

end HyperBody
